import Mathlib

/-!
# Verification of the BlueFTC device-value client

Shallow embedding of `src/blueftc/BlueforsController.py` (class
`BlueFTController`): the HTTP layer is modelled by an explicit network
oracle mapping requests to outcomes, each operation returns its result
together with the list of requests it issued, Python floats are modelled
by exact rationals extended with a NaN point, and JSON documents by an
inductive value type with association-list objects.
-/

set_option autoImplicit false

namespace BlueFTC

/-- JSON-ish values as they travel between the client and the device:
numbers (exact rationals), the float NaN point (`float("nan")` in the
sentinel), strings, booleans (the parser's `False` fallback), `null`
(Python `None`), and objects as association lists. -/
inductive JValue where
  | num (q : ℚ)
  | nan
  | str (s : String)
  | bool (b : Bool)
  | null
  | obj (fields : List (String × JValue))

/-- Association-list field lookup, as Python's `d[k]` on a dict literal. -/
def lookupKey : List (String × JValue) → String → Option JValue
  | [], _ => none
  | (k, v) :: rest, key => if k = key then some v else lookupKey rest key

/-- `d[k]` on a JSON value: succeeds only on objects holding the key;
every other shape is a Python `KeyError`/`TypeError`, modelled as `none`. -/
def jget : JValue → String → Option JValue
  | .obj fs, key => lookupKey fs key
  | _, _ => none

/-- The nested lookup `data["data"][f"{device}.{target}"]["content"]["latest_valid_value"]`
shared by `_get_synchronization_status` and `_get_value_from_data_response`. -/
def latestValidValue (data : JValue) (device target : String) : Option JValue :=
  ((((jget data "data").bind
      (fun d => jget d (device ++ "." ++ target))).bind
      (fun d => jget d "content")).bind
      (fun d => jget d "latest_valid_value"))

/-- The `["status"]` slot reached by `_get_synchronization_status`. -/
def statusField (data : JValue) (device target : String) : Option JValue :=
  (latestValidValue data device target).bind (fun d => jget d "status")

/-- The `["value"]` slot reached by `_get_value_from_data_response`. -/
def valueField (data : JValue) (device target : String) : Option JValue :=
  (latestValidValue data device target).bind (fun d => jget d "value")

/-- `_get_synchronization_status`: compares the nested status slot against
the string `"SYNCHRONIZED"`; a Python `==` between a non-string slot and a
string is `False`, and any lookup failure is swallowed by the bare
`except:` and yields `False`. -/
def get_synchronization_status (data : JValue) (device target : String) : Bool :=
  match statusField data device target with
  | some (.str s) => s = "SYNCHRONIZED"
  | _ => false

/-- `_get_value_from_data_response`: returns the nested value slot; any
lookup failure (missing key, wrong nesting, non-dict data) is swallowed by
the bare `except:` and yields the Python boolean `False`.  The
synchronization check inside the `try` block only prints a warning and
cannot raise, so it does not affect the result. -/
def get_value_from_data_response (data : JValue) (device target : String) : JValue :=
  match valueField data device target with
  | some v => v
  | none => .bool false

/-- Static client configuration fixed at construction
(`BlueFTController.__init__`). -/
structure Config where
  ip : String
  port : Nat
  key : Option String
  mixing_chamber_channel_id : Int
  mixing_chamber_heater : String

/-- `BlueFTController.__init__`: the heater mapping is the fixed device
path `mapper.heater_mappings_bftc.device.sample`. -/
def mkController (ip : String) (mixing_chamber_channel_id : Int) (port : Nat)
    (key : Option String) : Config :=
  ⟨ip, port, key, mixing_chamber_channel_id, "mapper.heater_mappings_bftc.device.sample"⟩

/-- A network request issued by the client, identified by its URL and,
for POST, its JSON body. -/
inductive Request where
  | get (path : String)
  | post (path : String) (body : JValue)

/-- Outcome of a GET as seen through `_get_value_request`'s `try`:
a 2xx response with a JSON body, one of the caught transport errors
(`BaseHTTPError`/`HTTPError` — including the non-2xx raised by
`raise_for_status` — /`ConnectionError`), or any other exception. -/
inductive GetOutcome where
  | ok (body : JValue)
  | connErr
  | otherErr

/-- Outcome of a POST: a 2xx response with a JSON body, or a failure
(non-2xx or transport error), which `raise_for_status` turns into an
uncaught exception. -/
inductive PostOutcome where
  | ok (body : JValue)
  | err

/-- The environment: what the device answers to each request. -/
structure Net where
  getResp : String → GetOutcome
  postResp : String → JValue → PostOutcome

/-- Exceptions the client can raise. -/
inductive PyErr where
  | pidConfig (msg : String)
  | httpError
  | typeError

/-- URL built by `_get_value_request`:
`https://{ip}:{port}/values/{device.replace('.','/')}/{target}/?prettyprint=1&key={key}`. -/
def valuesGetPath (cfg : Config) (k : String) (device target : String) : String :=
  "https://" ++ cfg.ip ++ ":" ++ toString cfg.port ++ "/values/" ++
    (device.replace "." "/") ++ "/" ++ target ++ "/?prettyprint=1&key=" ++ k

/-- URL built by `_set_value_request` and `_apply_values_request`:
`https://{ip}:{port}/values/?prettyprint=1&key={key}`. -/
def valuesPostPath (cfg : Config) (k : String) : String :=
  "https://" ++ cfg.ip ++ ":" ++ toString cfg.port ++ "/values/?prettyprint=1&key=" ++ k

/-- POST body of `_set_value_request`:
`{"data": {f"{device}.{target}": {"content": {"value": value}}}}`. -/
def setReqBody (device target : String) (value : JValue) : JValue :=
  .obj [("data", .obj [(device ++ "." ++ target,
    .obj [("content", .obj [("value", value)])])])]

/-- POST body of `_apply_values_request`:
`{"data": {f"{device}.write": {"content": {"call": 1}}}}`. -/
def applyReqBody (device : String) : JValue :=
  .obj [("data", .obj [(device ++ ".write",
    .obj [("content", .obj [("call", .num 1)])])])]

/-- The sentinel dict `_get_value_request` returns when the GET fails with
a caught transport error.  Note it has no `f"{device}.{target}"` level:
`"content"` sits directly under `"data"`. -/
def errorSentinel : JValue :=
  .obj [("data", .obj [("content", .obj [("latest_valid_value",
    .obj [("value", .nan), ("status", .str "ERROR")])])])]

/-- `_get_value_request`: raises `PIDConfigException` when no key is
configured, before building or issuing the request; on a caught transport
error logs and returns the sentinel; on any other exception prints and
returns `None`; otherwise returns the response's JSON body.  The second
component is the list of requests issued. -/
def get_value_request (cfg : Config) (net : Net) (device target : String) :
    Except PyErr JValue × List Request :=
  match cfg.key with
  | none => (.error (.pidConfig "No key provided for value request."), [])
  | some k =>
    let path := valuesGetPath cfg k device target
    match net.getResp path with
    | .ok body => (.ok body, [.get path])
    | .connErr => (.ok errorSentinel, [.get path])
    | .otherErr => (.ok .null, [.get path])

/-- `_set_value_request`: raises `PIDConfigException` when no key is
configured, before any network call; POSTs the value into the pending
slot; `raise_for_status` propagates any failure; returns the response's
JSON body. -/
def set_value_request (cfg : Config) (net : Net) (device target : String)
    (value : JValue) : Except PyErr JValue × List Request :=
  match cfg.key with
  | none => (.error (.pidConfig "No key provided for value request."), [])
  | some k =>
    let body := setReqBody device target value
    let path := valuesPostPath cfg k
    match net.postResp path body with
    | .ok respBody => (.ok respBody, [.post path body])
    | .err => (.error .httpError, [.post path body])

/-- `_apply_values_request`: raises `PIDConfigException` when no key is
configured, before any network call; POSTs the `write`/`call` body;
`raise_for_status` propagates any failure; the Python function has no
`return` statement, so it returns `None`. -/
def apply_values_request (cfg : Config) (net : Net) (device : String) :
    Except PyErr JValue × List Request :=
  match cfg.key with
  | none => (.error (.pidConfig "No key provided for value request."), [])
  | some k =>
    let body := applyReqBody device
    let path := valuesPostPath cfg k
    match net.postResp path body with
    | .ok _ => (.ok .null, [.post path body])
    | .err => (.error .httpError, [.post path body])

/-- A Python float: an exact rational or the NaN point.  All conversions
in the client are by `* 1000000.0`, `/ 1000000.0`, `/ 1000.0`; these are
exact on the decimal values the API carries, so rationals model them
faithfully. -/
inductive PyF where
  | num (q : ℚ)
  | nan
deriving DecidableEq

/-- Python's `float(x)` on the values the parser can hand back: floats and
NaN pass through, booleans coerce (`float(False) == 0.0`), anything else
(strings that the claims never exercise, `None`, dicts) is modelled as a
conversion failure. -/
def pyFloat : JValue → Option PyF
  | .num q => some (.num q)
  | .nan => some .nan
  | .bool b => some (.num (if b then 1 else 0))
  | _ => none

/-- Multiplication of a Python float by a rational constant (`* 1000000.0`
in `get_mxc_heater_power`); NaN is absorbing. -/
def pyFMul (v : PyF) (c : ℚ) : PyF :=
  match v with
  | .num q => .num (q * c)
  | .nan => .nan

/-- Python `x == "s"` where `x` is an arbitrary parsed value: true only
when `x` is the same string. -/
def pyEqStr (v : JValue) (s : String) : Bool :=
  match v with
  | .str t => t = s
  | _ => false

/-- Device identifier built by `get_channel_data`:
`f"mapper.heater_mappings_bftc.device.c{channel}"`. -/
def channelDevice (channel : Int) : String :=
  "mapper.heater_mappings_bftc.device.c" ++ toString channel

/-- `get_channel_data`: builds the channel's device identifier, issues the
read and parses the response.  The `except KeyError: raise APIError(data)`
branch of the Python is unreachable: `_get_value_from_data_response`
catches every exception itself and returns `False`, so the parse result is
returned as-is. -/
def get_channel_data (cfg : Config) (net : Net) (channel : Int)
    (target_value : String) : Except PyErr JValue × List Request :=
  let device_id := channelDevice channel
  let (r, tr) := get_value_request cfg net device_id target_value
  match r with
  | .error e => (.error e, tr)
  | .ok data => (.ok (get_value_from_data_response data device_id target_value), tr)

/-- `get_channel_temperature`: `float(self.get_channel_data(channel, "temperature"))`. -/
def get_channel_temperature (cfg : Config) (net : Net) (channel : Int) :
    Except PyErr PyF × List Request :=
  let (r, tr) := get_channel_data cfg net channel "temperature"
  match r with
  | .error e => (.error e, tr)
  | .ok v =>
    match pyFloat v with
    | some f => (.ok f, tr)
    | none => (.error .typeError, tr)

/-- `get_channel_resistance`: `float(self.get_channel_data(channel, "resistance"))`. -/
def get_channel_resistance (cfg : Config) (net : Net) (channel : Int) :
    Except PyErr PyF × List Request :=
  let (r, tr) := get_channel_data cfg net channel "resistance"
  match r with
  | .error e => (.error e, tr)
  | .ok v =>
    match pyFloat v with
    | some f => (.ok f, tr)
    | none => (.error .typeError, tr)

/-- `get_mxc_heater_value`: read from the fixed heater device and parse;
as in `get_channel_data`, the `APIError` branch is unreachable. -/
def get_mxc_heater_value (cfg : Config) (net : Net) (target : String) :
    Except PyErr JValue × List Request :=
  let (r, tr) := get_value_request cfg net cfg.mixing_chamber_heater target
  match r with
  | .error e => (.error e, tr)
  | .ok data =>
    (.ok (get_value_from_data_response data cfg.mixing_chamber_heater target), tr)

/-- `check_heater_value_synced`: re-read the heater target and report its
synchronization status; `_get_synchronization_status` never raises, so the
`APIError` branch is unreachable. -/
def check_heater_value_synced (cfg : Config) (net : Net) (target : String) :
    Except PyErr Bool × List Request :=
  let (r, tr) := get_value_request cfg net cfg.mixing_chamber_heater target
  match r with
  | .error e => (.error e, tr)
  | .ok data =>
    (.ok (get_synchronization_status data cfg.mixing_chamber_heater target), tr)

/-- `set_mxc_heater_value`: POST the value into the pending slot, POST the
apply call, then re-read the target and return its synchronization status.
A failure in either POST propagates. -/
def set_mxc_heater_value (cfg : Config) (net : Net) (target : String)
    (value : JValue) : Except PyErr Bool × List Request :=
  let (r1, t1) := set_value_request cfg net cfg.mixing_chamber_heater target value
  match r1 with
  | .error e => (.error e, t1)
  | .ok _ =>
    let (r2, t2) := apply_values_request cfg net cfg.mixing_chamber_heater
    match r2 with
    | .error e => (.error e, t1 ++ t2)
    | .ok _ =>
      let (r3, t3) := check_heater_value_synced cfg net target
      (r3, t1 ++ t2 ++ t3)

/-- `get_mxc_heater_status`: `self.get_mxc_heater_value("active") == "1"`. -/
def get_mxc_heater_status (cfg : Config) (net : Net) :
    Except PyErr Bool × List Request :=
  let (r, tr) := get_mxc_heater_value cfg net "active"
  match r with
  | .error e => (.error e, tr)
  | .ok v => (.ok (pyEqStr v "1"), tr)

/-- `set_mxc_heater_status`: writes `"1"` for `True`, `"0"` for `False`. -/
def set_mxc_heater_status (cfg : Config) (net : Net) (newStatus : Bool) :
    Except PyErr Bool × List Request :=
  set_mxc_heater_value cfg net "active" (.str (if newStatus then "1" else "0"))

/-- `get_mxc_heater_power`: `float(self.get_mxc_heater_value("power")) * 1000000.0`. -/
def get_mxc_heater_power (cfg : Config) (net : Net) :
    Except PyErr PyF × List Request :=
  let (r, tr) := get_mxc_heater_value cfg net "power"
  match r with
  | .error e => (.error e, tr)
  | .ok v =>
    match pyFloat v with
    | some f => (.ok (pyFMul f 1000000), tr)
    | none => (.error .typeError, tr)

/-- `set_mxc_heater_power`: rejects powers outside `[0, 1000]` microwatts
before any network call, otherwise writes `power / 1000000.0`. -/
def set_mxc_heater_power (cfg : Config) (net : Net) (power : ℚ) :
    Except PyErr Bool × List Request :=
  if power < 0 ∨ power > 1000 then
    (.error (.pidConfig "Power should be in the range of 0 to 1000 microwatts"), [])
  else
    set_mxc_heater_value cfg net "power" (.num (power / 1000000))

/-- `get_mxc_heater_setpoint`: `float(self.get_mxc_heater_value("setpoint"))`. -/
def get_mxc_heater_setpoint (cfg : Config) (net : Net) :
    Except PyErr PyF × List Request :=
  let (r, tr) := get_mxc_heater_value cfg net "setpoint"
  match r with
  | .error e => (.error e, tr)
  | .ok v =>
    match pyFloat v with
    | some f => (.ok f, tr)
    | none => (.error .typeError, tr)

/-- `set_mxc_heater_setpoint`: writes `temperature / 1000.0` (milli-Kelvin
in, Kelvin stored). -/
def set_mxc_heater_setpoint (cfg : Config) (net : Net) (temperature : ℚ) :
    Except PyErr Bool × List Request :=
  set_mxc_heater_value cfg net "setpoint" (.num (temperature / 1000))

/-- `get_mxc_heater_mode`: `self.get_mxc_heater_value("pid_mode") == "1"`. -/
def get_mxc_heater_mode (cfg : Config) (net : Net) :
    Except PyErr Bool × List Request :=
  let (r, tr) := get_mxc_heater_value cfg net "pid_mode"
  match r with
  | .error e => (.error e, tr)
  | .ok v => (.ok (pyEqStr v "1"), tr)

/-- `set_mxc_heater_mode`: writes `"1"` for `True`, `"0"` for `False`. -/
def set_mxc_heater_mode (cfg : Config) (net : Net) (toggle : Bool) :
    Except PyErr Bool × List Request :=
  set_mxc_heater_value cfg net "pid_mode" (.str (if toggle then "1" else "0"))

/-- The standard response envelope
`{"data": {f"{device}.{target}": {"content": {"latest_valid_value":
{"value": v, "status": s}}}}}` used by the device on successful reads. -/
def envelope (device target : String) (v : JValue) (s : String) : JValue :=
  .obj [("data", .obj [(device ++ "." ++ target,
    .obj [("content", .obj [("latest_valid_value",
      .obj [("value", v), ("status", .str s)])])])])]

/-- A stub device answering every GET with the given envelope and every
POST with success; used for stubbed round trips. -/
def stubNet (device target : String) (v : JValue) (s : String) : Net :=
  ⟨fun _ => .ok (envelope device target v s), fun _ _ => .ok .null⟩

/-! ## Concrete instances used by witnesses -/

/-- A demo configuration with an API key, mixing chamber on channel 6. -/
def cfgDemo : Config := mkController "10.0.0.1" 6 49098 (some "apikey")

/-- A configuration constructed without an API key. -/
def cfgNoKey : Config := mkController "10.0.0.1" 6 49098 none

/-- A device that answers `null` to every request. -/
def netOkNull : Net := ⟨fun _ => .ok .null, fun _ _ => .ok .null⟩

/-- An unreachable device: every GET hits a caught transport error, every
POST fails. -/
def netDown : Net := ⟨fun _ => .connErr, fun _ _ => .err⟩

/-! ## Parsing lemmas for the standard envelope -/

theorem valueField_envelope (d t : String) (v : JValue) (s : String) :
    valueField (envelope d t v s) d t = some v := by
  simp [valueField, latestValidValue, envelope, jget, lookupKey]

theorem statusField_envelope (d t : String) (v : JValue) (s : String) :
    statusField (envelope d t v s) d t = some (.str s) := by
  simp [statusField, latestValidValue, envelope, jget, lookupKey]

theorem parse_envelope (d t : String) (v : JValue) (s : String) :
    get_value_from_data_response (envelope d t v s) d t = v := by
  simp [get_value_from_data_response, valueField_envelope]

theorem sync_envelope (d t : String) (v : JValue) (s : String) :
    get_synchronization_status (envelope d t v s) d t = decide (s = "SYNCHRONIZED") := by
  simp [get_synchronization_status, statusField_envelope]

/-! ## Claim theorems -/

/-- C4: with `key = None`, the read, write and apply operations each raise
`PIDConfigException` and issue no network request. -/
theorem key_none_fails_fast (cfg : Config) (net : Net) (device target : String)
    (value : JValue) (hk : cfg.key = none) :
    get_value_request cfg net device target
      = (.error (.pidConfig "No key provided for value request."), []) ∧
    set_value_request cfg net device target value
      = (.error (.pidConfig "No key provided for value request."), []) ∧
    apply_values_request cfg net device
      = (.error (.pidConfig "No key provided for value request."), []) := by
  refine ⟨?_, ?_, ?_⟩ <;>
    simp [get_value_request, set_value_request, apply_values_request, hk]

/-- Witness for C4 at a concrete keyless configuration. -/
theorem key_none_fails_fast_witness :
    get_value_request cfgNoKey netDown "mapper.heater_mappings_bftc.device.sample" "power"
      = (.error (.pidConfig "No key provided for value request."), []) ∧
    set_value_request cfgNoKey netDown "mapper.heater_mappings_bftc.device.sample" "power" (.num 1)
      = (.error (.pidConfig "No key provided for value request."), []) ∧
    apply_values_request cfgNoKey netDown "mapper.heater_mappings_bftc.device.sample"
      = (.error (.pidConfig "No key provided for value request."), []) :=
  key_none_fails_fast cfgNoKey netDown "mapper.heater_mappings_bftc.device.sample"
    "power" (.num 1) rfl

/-- With a key configured, the first request issued by
`set_mxc_heater_value` is always the POST of the value into the pending
slot, whatever the device answers afterwards. -/
theorem set_mxc_heater_value_first_request (cfg : Config) (net : Net)
    (target : String) (value : JValue) (k : String) (hk : cfg.key = some k) :
    (set_mxc_heater_value cfg net target value).2.head?
      = some (.post (valuesPostPath cfg k)
          (setReqBody cfg.mixing_chamber_heater target value)) := by
  simp only [set_mxc_heater_value, set_value_request, hk]
  cases net.postResp (valuesPostPath cfg k)
      (setReqBody cfg.mixing_chamber_heater target value) with
  | err => rfl
  | ok b1 =>
    simp only [apply_values_request, hk]
    cases net.postResp (valuesPostPath cfg k)
        (applyReqBody cfg.mixing_chamber_heater) with
    | err => rfl
    | ok b2 =>
      simp only [check_heater_value_synced, get_value_request, hk]
      cases net.getResp (valuesGetPath cfg k cfg.mixing_chamber_heater target) <;> rfl

/-- C5: `set_mxc_heater_power` raises the out-of-range `PIDConfigException`
without issuing any network request exactly when `power < 0` or
`power > 1000`; for every in-range power (endpoints included) it proceeds
to contact the device, its first request being the POST of
`power / 1000000` into the pending power slot. -/
theorem set_mxc_heater_power_range (cfg : Config) (net : Net) (power : ℚ)
    (k : String) :
    (power < 0 ∨ power > 1000 →
      set_mxc_heater_power cfg net power
        = (.error (.pidConfig "Power should be in the range of 0 to 1000 microwatts"), [])) ∧
    (0 ≤ power → power ≤ 1000 →
      set_mxc_heater_power cfg net power
        ≠ (.error (.pidConfig "Power should be in the range of 0 to 1000 microwatts"), [])) ∧
    (0 ≤ power → power ≤ 1000 → cfg.key = some k →
      (set_mxc_heater_power cfg net power).2.head?
        = some (.post (valuesPostPath cfg k)
            (setReqBody cfg.mixing_chamber_heater "power" (.num (power / 1000000))))) := by
  refine ⟨fun h => ?_, fun h0 h1 => ?_, fun h0 h1 hk => ?_⟩
  · simp [set_mxc_heater_power, h]
  · have hrange : ¬(power < 0 ∨ power > 1000) := by
      push_neg
      exact ⟨h0, h1⟩
    simp only [set_mxc_heater_power, if_neg hrange]
    simp only [set_mxc_heater_value, set_value_request]
    cases hkey : cfg.key with
    | none => simp
    | some k' =>
      simp only []
      cases net.postResp (valuesPostPath cfg k')
          (setReqBody cfg.mixing_chamber_heater "power" (.num (power / 1000000))) with
      | err => simp
      | ok b1 =>
        cases apply_values_request cfg net cfg.mixing_chamber_heater with
        | mk r2 t2 =>
          cases r2 with
          | error e => simp
          | ok u =>
            cases check_heater_value_synced cfg net "power" with
            | mk r3 t3 => simp
  · have hrange : ¬(power < 0 ∨ power > 1000) := by
      push_neg
      exact ⟨h0, h1⟩
    simp only [set_mxc_heater_power, if_neg hrange]
    exact set_mxc_heater_value_first_request cfg net "power" (.num (power / 1000000)) k hk

/-- Witness for C5: power 1001 is rejected without a request; the
endpoints 0 and 1000 proceed to the POST. -/
theorem set_mxc_heater_power_range_witness :
    set_mxc_heater_power cfgDemo netOkNull 1001
      = (.error (.pidConfig "Power should be in the range of 0 to 1000 microwatts"), []) ∧
    (set_mxc_heater_power cfgDemo netOkNull 0).2.head?
      = some (.post (valuesPostPath cfgDemo "apikey")
          (setReqBody cfgDemo.mixing_chamber_heater "power" (.num (0 / 1000000)))) ∧
    (set_mxc_heater_power cfgDemo netOkNull 1000).2.head?
      = some (.post (valuesPostPath cfgDemo "apikey")
          (setReqBody cfgDemo.mixing_chamber_heater "power" (.num (1000 / 1000000)))) :=
  ⟨(set_mxc_heater_power_range cfgDemo netOkNull 1001 "apikey").1 (Or.inr (by norm_num)),
   (set_mxc_heater_power_range cfgDemo netOkNull 0 "apikey").2.2
     (by norm_num) (by norm_num) rfl,
   (set_mxc_heater_power_range cfgDemo netOkNull 1000 "apikey").2.2
     (by norm_num) (by norm_num) rfl⟩

/-- C1: a successful `set_mxc_heater_value` issues exactly two POSTs in
order — the value into the pending slot, then the apply/write call — then
re-reads the target and returns its synchronization status; a failed POST
in either phase raises instead of returning. -/
theorem set_mxc_heater_value_two_phase (cfg : Config) (net : Net)
    (target : String) (value : JValue) (k : String) (hk : cfg.key = some k) :
    (net.postResp (valuesPostPath cfg k)
        (setReqBody cfg.mixing_chamber_heater target value) = .err →
      set_mxc_heater_value cfg net target value
        = (.error .httpError,
           [.post (valuesPostPath cfg k)
              (setReqBody cfg.mixing_chamber_heater target value)])) ∧
    (∀ b1, net.postResp (valuesPostPath cfg k)
        (setReqBody cfg.mixing_chamber_heater target value) = .ok b1 →
      net.postResp (valuesPostPath cfg k)
        (applyReqBody cfg.mixing_chamber_heater) = .err →
      set_mxc_heater_value cfg net target value
        = (.error .httpError,
           [.post (valuesPostPath cfg k)
              (setReqBody cfg.mixing_chamber_heater target value),
            .post (valuesPostPath cfg k)
              (applyReqBody cfg.mixing_chamber_heater)])) ∧
    (∀ b1 b2 d, net.postResp (valuesPostPath cfg k)
        (setReqBody cfg.mixing_chamber_heater target value) = .ok b1 →
      net.postResp (valuesPostPath cfg k)
        (applyReqBody cfg.mixing_chamber_heater) = .ok b2 →
      net.getResp (valuesGetPath cfg k cfg.mixing_chamber_heater target) = .ok d →
      set_mxc_heater_value cfg net target value
        = (.ok (get_synchronization_status d cfg.mixing_chamber_heater target),
           [.post (valuesPostPath cfg k)
              (setReqBody cfg.mixing_chamber_heater target value),
            .post (valuesPostPath cfg k)
              (applyReqBody cfg.mixing_chamber_heater),
            .get (valuesGetPath cfg k cfg.mixing_chamber_heater target)])) := by
  refine ⟨fun h1 => ?_, fun b1 h1 h2 => ?_, fun b1 b2 d h1 h2 h3 => ?_⟩
  · simp [set_mxc_heater_value, set_value_request, hk, h1]
  · simp [set_mxc_heater_value, set_value_request, apply_values_request, hk, h1, h2]
  · simp [set_mxc_heater_value, set_value_request, apply_values_request,
      check_heater_value_synced, get_value_request, hk, h1, h2, h3]

/-- Witness for C1: a healthy stub runs all three requests and returns the
re-read's synchronization status; an unreachable device fails the first
phase. -/
theorem set_mxc_heater_value_two_phase_witness :
    set_mxc_heater_value cfgDemo
        (stubNet cfgDemo.mixing_chamber_heater "power" (.num 1) "SYNCHRONIZED")
        "power" (.num 1)
      = (.ok true,
         [.post (valuesPostPath cfgDemo "apikey")
            (setReqBody cfgDemo.mixing_chamber_heater "power" (.num 1)),
          .post (valuesPostPath cfgDemo "apikey")
            (applyReqBody cfgDemo.mixing_chamber_heater),
          .get (valuesGetPath cfgDemo "apikey" cfgDemo.mixing_chamber_heater "power")]) ∧
    set_mxc_heater_value cfgDemo netDown "power" (.num 1)
      = (.error .httpError,
         [.post (valuesPostPath cfgDemo "apikey")
            (setReqBody cfgDemo.mixing_chamber_heater "power" (.num 1))]) := by
  constructor
  · have h := (set_mxc_heater_value_two_phase cfgDemo
      (stubNet cfgDemo.mixing_chamber_heater "power" (.num 1) "SYNCHRONIZED")
      "power" (.num 1) "apikey" rfl).2.2 .null .null
      (envelope cfgDemo.mixing_chamber_heater "power" (.num 1) "SYNCHRONIZED")
      rfl rfl rfl
    simpa [sync_envelope] using h
  · exact (set_mxc_heater_value_two_phase cfgDemo netDown "power" (.num 1)
      "apikey" rfl).1 rfl

/-- The exact response body of the C8 scenario, keyed by the literal
string `mapper.heater_mappings_bftc.device.c6.temperature`. -/
def respC6 : JValue :=
  .obj [("data", .obj [("mapper.heater_mappings_bftc.device.c6.temperature",
    .obj [("content", .obj [("latest_valid_value",
      .obj [("value", .num 0.0123), ("status", .str "SYNCHRONIZED")])])])])]

/-- A device answering every GET with the C8 scenario body. -/
def netC6 : Net := ⟨fun _ => .ok respC6, fun _ _ => .ok .null⟩

/-- C8: the device identifier substitutes `c{n}` into the fixed mapping
path for every channel index, and on the scenario envelope for channel 6
`get_channel_temperature 6` returns `0.0123` with the reading reported
synchronized. -/
theorem get_channel_temperature_channel6 (cfg : Config) (net : Net) (k : String)
    (hk : cfg.key = some k)
    (hresp : net.getResp (valuesGetPath cfg k (channelDevice 6) "temperature")
      = .ok respC6) :
    (∀ n : Int, channelDevice n
      = "mapper.heater_mappings_bftc.device.c" ++ toString n) ∧
    get_channel_temperature cfg net 6
      = (.ok (.num 0.0123),
         [.get (valuesGetPath cfg k (channelDevice 6) "temperature")]) ∧
    get_synchronization_status respC6 (channelDevice 6) "temperature" = true := by
  refine ⟨fun n => rfl, ?_, ?_⟩
  · have hparse : get_value_from_data_response respC6 (channelDevice 6) "temperature"
        = .num 0.0123 := rfl
    simp [get_channel_temperature, get_channel_data, get_value_request, hk, hresp,
      hparse, pyFloat]
  · rfl

/-- Witness for C8 at the demo configuration and the scenario device. -/
theorem get_channel_temperature_channel6_witness :
    get_channel_temperature cfgDemo netC6 6
      = (.ok (.num 0.0123),
         [.get (valuesGetPath cfgDemo "apikey" (channelDevice 6) "temperature")]) ∧
    get_synchronization_status respC6 (channelDevice 6) "temperature" = true :=
  (get_channel_temperature_channel6 cfgDemo netC6 "apikey" rfl rfl).2

/-- C6: unit conversions are exact — the power write POSTs
`power / 1000000`, the power read multiplies the stored watts by
`1000000`, so a stubbed round trip returns the written microwatts; the
setpoint write POSTs `temperature / 1000` and the setpoint read returns
the stored Kelvin value unchanged. -/
theorem heater_unit_conversions (cfg : Config) (net : Net) (k : String)
    (p t q : ℚ) :
    (cfg.key = some k → 0 ≤ p → p ≤ 1000 →
      (set_mxc_heater_power cfg net p).2.head?
        = some (.post (valuesPostPath cfg k)
            (setReqBody cfg.mixing_chamber_heater "power" (.num (p / 1000000))))) ∧
    (cfg.key = some k →
      (get_mxc_heater_power cfg
          (stubNet cfg.mixing_chamber_heater "power" (.num q) "SYNCHRONIZED")).1
        = .ok (.num (q * 1000000))) ∧
    (cfg.key = some k →
      (get_mxc_heater_power cfg
          (stubNet cfg.mixing_chamber_heater "power" (.num (p / 1000000))
            "SYNCHRONIZED")).1
        = .ok (.num p)) ∧
    (cfg.key = some k →
      (set_mxc_heater_setpoint cfg net t).2.head?
        = some (.post (valuesPostPath cfg k)
            (setReqBody cfg.mixing_chamber_heater "setpoint" (.num (t / 1000))))) ∧
    (cfg.key = some k →
      (get_mxc_heater_setpoint cfg
          (stubNet cfg.mixing_chamber_heater "setpoint" (.num q) "SYNCHRONIZED")).1
        = .ok (.num q)) := by
  have hget : ∀ w : ℚ, cfg.key = some k →
      (get_mxc_heater_power cfg
          (stubNet cfg.mixing_chamber_heater "power" (.num w) "SYNCHRONIZED")).1
        = .ok (.num (w * 1000000)) := by
    intro w hk
    simp [get_mxc_heater_power, get_mxc_heater_value, get_value_request, hk,
      stubNet, parse_envelope, pyFloat, pyFMul]
  refine ⟨fun hk h0 h1 => ?_, fun hk => hget q hk, fun hk => ?_, fun hk => ?_,
    fun hk => ?_⟩
  · have hrange : ¬(p < 0 ∨ p > 1000) := by
      push_neg
      exact ⟨h0, h1⟩
    simp only [set_mxc_heater_power, if_neg hrange]
    exact set_mxc_heater_value_first_request cfg net "power" (.num (p / 1000000)) k hk
  · have h := hget (p / 1000000) hk
    rwa [div_mul_cancel₀ p (by norm_num : (1000000 : ℚ) ≠ 0)] at h
  · exact set_mxc_heater_value_first_request cfg net "setpoint" (.num (t / 1000)) k hk
  · simp [get_mxc_heater_setpoint, get_mxc_heater_value, get_value_request, hk,
      stubNet, parse_envelope, pyFloat]

/-- Witness for C6: 500 µW round-trips to 500, 10 mK is written as
`10 / 1000` and a stored `0.01` K reads back as `0.01`. -/
theorem heater_unit_conversions_witness :
    (set_mxc_heater_power cfgDemo netOkNull 500).2.head?
      = some (.post (valuesPostPath cfgDemo "apikey")
          (setReqBody cfgDemo.mixing_chamber_heater "power" (.num (500 / 1000000)))) ∧
    (get_mxc_heater_power cfgDemo
        (stubNet cfgDemo.mixing_chamber_heater "power" (.num (500 / 1000000))
          "SYNCHRONIZED")).1
      = .ok (.num 500) ∧
    (set_mxc_heater_setpoint cfgDemo netOkNull 10).2.head?
      = some (.post (valuesPostPath cfgDemo "apikey")
          (setReqBody cfgDemo.mixing_chamber_heater "setpoint" (.num (10 / 1000)))) ∧
    (get_mxc_heater_setpoint cfgDemo
        (stubNet cfgDemo.mixing_chamber_heater "setpoint" (.num 0.01)
          "SYNCHRONIZED")).1
      = .ok (.num 0.01) :=
  ⟨(heater_unit_conversions cfgDemo netOkNull "apikey" 500 0 0).1 rfl
      (by norm_num) (by norm_num),
   (heater_unit_conversions cfgDemo netOkNull "apikey" 500 0 0).2.2.1 rfl,
   (heater_unit_conversions cfgDemo netOkNull "apikey" 0 10 0).2.2.2.1 rfl,
   (heater_unit_conversions cfgDemo netOkNull "apikey" 0 0 0.01).2.2.2.2 rfl⟩

/-- C7: the heater status and PID-mode writes put the strings `"1"`/`"0"`
on the wire, and the corresponding reads answer `true` exactly when the
wire value is the string `"1"`. -/
theorem heater_bool_wire (cfg : Config) (net : Net) (k : String) (b : Bool)
    (v : JValue) (s : String) :
    (cfg.key = some k →
      (set_mxc_heater_status cfg net b).2.head?
        = some (.post (valuesPostPath cfg k)
            (setReqBody cfg.mixing_chamber_heater "active"
              (.str (if b then "1" else "0"))))) ∧
    (cfg.key = some k →
      (set_mxc_heater_mode cfg net b).2.head?
        = some (.post (valuesPostPath cfg k)
            (setReqBody cfg.mixing_chamber_heater "pid_mode"
              (.str (if b then "1" else "0"))))) ∧
    (cfg.key = some k →
      (get_mxc_heater_status cfg
          (stubNet cfg.mixing_chamber_heater "active" v s)).1
        = .ok (pyEqStr v "1")) ∧
    (cfg.key = some k →
      (get_mxc_heater_mode cfg
          (stubNet cfg.mixing_chamber_heater "pid_mode" v s)).1
        = .ok (pyEqStr v "1")) ∧
    (pyEqStr v "1" = true ↔ v = .str "1") := by
  refine ⟨fun hk => ?_, fun hk => ?_, fun hk => ?_, fun hk => ?_, ?_⟩
  · exact set_mxc_heater_value_first_request cfg net "active"
      (.str (if b then "1" else "0")) k hk
  · exact set_mxc_heater_value_first_request cfg net "pid_mode"
      (.str (if b then "1" else "0")) k hk
  · simp [get_mxc_heater_status, get_mxc_heater_value, get_value_request, hk,
      stubNet, parse_envelope]
  · simp [get_mxc_heater_mode, get_mxc_heater_value, get_value_request, hk,
      stubNet, parse_envelope]
  · cases v <;> simp [pyEqStr]

/-- Witness for C7: writing `True` puts `"1"` on the wire; a wire `"1"`
reads back as `true` and a wire `0.0` (a non-string) as `false`. -/
theorem heater_bool_wire_witness :
    (set_mxc_heater_status cfgDemo netOkNull true).2.head?
      = some (.post (valuesPostPath cfgDemo "apikey")
          (setReqBody cfgDemo.mixing_chamber_heater "active" (.str "1"))) ∧
    (get_mxc_heater_status cfgDemo
        (stubNet cfgDemo.mixing_chamber_heater "active" (.str "1")
          "SYNCHRONIZED")).1
      = .ok true ∧
    (get_mxc_heater_mode cfgDemo
        (stubNet cfgDemo.mixing_chamber_heater "pid_mode" (.num 0)
          "SYNCHRONIZED")).1
      = .ok false := by
  refine ⟨?_, ?_, ?_⟩
  · have h := (heater_bool_wire cfgDemo netOkNull "apikey" true (.str "1")
      "SYNCHRONIZED").1 rfl
    simpa using h
  · have h := (heater_bool_wire cfgDemo netOkNull "apikey" true (.str "1")
      "SYNCHRONIZED").2.2.1 rfl
    simpa [pyEqStr] using h
  · have h := (heater_bool_wire cfgDemo netOkNull "apikey" true (.num 0)
      "SYNCHRONIZED").2.2.2.1 rfl
    simpa [pyEqStr] using h

/-- C10: the response parsers are total — on any shape mismatch they
return the boolean `False` instead of letting an exception escape, the
status check answers `true` only when the nested status slot is exactly
the string `"SYNCHRONIZED"`, and a present value slot is returned
unchanged. -/
theorem parse_helpers_total (data : JValue) (device target : String) :
    (get_synchronization_status data device target = true ↔
      statusField data device target = some (.str "SYNCHRONIZED")) ∧
    (statusField data device target = none →
      get_synchronization_status data device target = false) ∧
    (valueField data device target = none →
      get_value_from_data_response data device target = .bool false) ∧
    (∀ v, valueField data device target = some v →
      get_value_from_data_response data device target = v) := by
  refine ⟨?_, fun h => ?_, fun h => ?_, fun v h => ?_⟩
  · cases hs : statusField data device target with
    | none => simp [get_synchronization_status, hs]
    | some w => cases w <;> simp [get_synchronization_status, hs]
  · simp [get_synchronization_status, h]
  · simp [get_value_from_data_response, h]
  · simp [get_value_from_data_response, h]

/-- Witness for C10 on the transport-error sentinel (whose envelope lacks
the per-target key) and on the channel-6 scenario body. -/
theorem parse_helpers_total_witness :
    get_value_from_data_response errorSentinel (channelDevice 6) "temperature"
      = .bool false ∧
    get_value_from_data_response respC6 (channelDevice 6) "temperature"
      = .num 0.0123 ∧
    (get_synchronization_status respC6 (channelDevice 6) "temperature" = true ↔
      statusField respC6 (channelDevice 6) "temperature"
        = some (.str "SYNCHRONIZED")) :=
  ⟨(parse_helpers_total errorSentinel (channelDevice 6) "temperature").2.2.1 rfl,
   (parse_helpers_total respC6 (channelDevice 6) "temperature").2.2.2
     (.num 0.0123) rfl,
   (parse_helpers_total respC6 (channelDevice 6) "temperature").1⟩

/-- Parsing the transport-error sentinel fails for every device and
target: its envelope has no `f"{device}.{target}"` level, so the nested
value lookup misses and the parser falls back to the boolean `False`. -/
theorem sentinel_parses_false (device target : String) :
    valueField errorSentinel device target = none ∧
    get_value_from_data_response errorSentinel device target = .bool false ∧
    get_synchronization_status errorSentinel device target = false := by
  have hval : valueField errorSentinel device target = none := by
    by_cases h : "content" = device ++ "." ++ target
    · simp [valueField, latestValidValue, errorSentinel, jget, lookupKey, ← h]
    · simp [valueField, latestValidValue, errorSentinel, jget, lookupKey, h]
  have hstat : statusField errorSentinel device target = none := by
    by_cases h : "content" = device ++ "." ++ target
    · simp [statusField, latestValidValue, errorSentinel, jget, lookupKey, ← h]
    · simp [statusField, latestValidValue, errorSentinel, jget, lookupKey, h]
  exact ⟨hval, by simp [get_value_from_data_response, hval],
    by simp [get_synchronization_status, hstat]⟩

/-- C2, counterexample: an unreachable-device error reading is not
distinguishable from a valid reading — `get_channel_temperature` answers
`0.0` both for a synchronized reading of `0.0` and for a transport error
(where the parser's `False` fallback is coerced by `float`), so the error
reading is silently coerced to a default. -/
theorem error_reading_indistinguishable :
    (get_channel_temperature cfgDemo
        (stubNet (channelDevice 6) "temperature" (.num 0) "SYNCHRONIZED") 6).1
      = .ok (.num 0) ∧
    (get_channel_temperature cfgDemo netDown 6).1 = .ok (.num 0) :=
  ⟨rfl, rfl⟩

/-- C2, amended: a read whose response carries a non-`SYNCHRONIZED`
status still returns the raw value while the synchronization check
reports `false`; but an error reading is not distinguishable — on a
transport error the parser's `False` fallback reaches
`get_channel_temperature` as `0.0`. -/
theorem unsynchronized_read_value_and_flag (device target : String) (v : JValue)
    (s : String) (cfg : Config) (net : Net) (channel : Int) (k : String) :
    (s ≠ "SYNCHRONIZED" →
      get_value_from_data_response (envelope device target v s) device target = v ∧
      get_synchronization_status (envelope device target v s) device target
        = false) ∧
    (cfg.key = some k →
      net.getResp (valuesGetPath cfg k (channelDevice channel) "temperature")
        = .connErr →
      get_channel_temperature cfg net channel
        = (.ok (.num 0),
           [.get (valuesGetPath cfg k (channelDevice channel) "temperature")])) := by
  refine ⟨fun hs => ⟨parse_envelope device target v s, ?_⟩, fun hk hconn => ?_⟩
  · simp [sync_envelope, hs]
  · have hparse := (sentinel_parses_false (channelDevice channel) "temperature").2.1
    simp [get_channel_temperature, get_channel_data, get_value_request, hk, hconn,
      hparse, pyFloat]

/-- Witness for the amended C2: a `NOT_SYNCHRONIZED` reading of `0.42`
returns the raw value with the flag `false`; the unreachable channel-6
read returns `0.0`. -/
theorem unsynchronized_read_value_and_flag_witness :
    (get_value_from_data_response
        (envelope (channelDevice 6) "temperature" (.num 0.42) "NOT_SYNCHRONIZED")
        (channelDevice 6) "temperature" = .num 0.42 ∧
      get_synchronization_status
        (envelope (channelDevice 6) "temperature" (.num 0.42) "NOT_SYNCHRONIZED")
        (channelDevice 6) "temperature" = false) ∧
    get_channel_temperature cfgDemo netDown 6
      = (.ok (.num 0),
         [.get (valuesGetPath cfgDemo "apikey" (channelDevice 6) "temperature")]) :=
  ⟨(unsynchronized_read_value_and_flag (channelDevice 6) "temperature" (.num 0.42)
      "NOT_SYNCHRONIZED" cfgDemo netDown 6 "apikey").1 (by decide),
   (unsynchronized_read_value_and_flag (channelDevice 6) "temperature" (.num 0.42)
      "NOT_SYNCHRONIZED" cfgDemo netDown 6 "apikey").2 rfl rfl⟩

/-- C3: on a caught transport error the read returns the sentinel instead
of raising, and the sentinel does carry a NaN value slot and an `"ERROR"`
status under `data → content → latest_valid_value`; but the sentinel's
envelope lacks the `f"{device}.{target}"` level, so the per-target value
lookup misses and `get_channel_temperature` receives `0.0` — the float
coercion of the parser's `False` fallback — rather than NaN. -/
theorem unreachable_read_evaluates_to_zero :
    get_value_request cfgDemo netDown (channelDevice 6) "temperature"
      = (.ok errorSentinel,
         [.get (valuesGetPath cfgDemo "apikey" (channelDevice 6) "temperature")]) ∧
    ((((jget errorSentinel "data").bind (fun d => jget d "content")).bind
        (fun d => jget d "latest_valid_value")).bind (fun d => jget d "value")
      = some .nan) ∧
    ((((jget errorSentinel "data").bind (fun d => jget d "content")).bind
        (fun d => jget d "latest_valid_value")).bind (fun d => jget d "status")
      = some (.str "ERROR")) ∧
    valueField errorSentinel (channelDevice 6) "temperature" = none ∧
    get_channel_temperature cfgDemo netDown 6
      = (.ok (.num 0),
         [.get (valuesGetPath cfgDemo "apikey" (channelDevice 6) "temperature")]) :=
  ⟨rfl, rfl, rfl, rfl, rfl⟩

/-- C9, counterexample: on a malformed response body (an empty JSON
object) `get_channel_data` returns the boolean `False` normally instead
of raising a structured `APIError` — the parse failure never escapes
`_get_value_from_data_response`. -/
theorem malformed_read_returns_false :
    get_channel_data cfgDemo ⟨fun _ => .ok (.obj []), fun _ _ => .ok .null⟩
        6 "temperature"
      = (.ok (.bool false),
         [.get (valuesGetPath cfgDemo "apikey" (channelDevice 6) "temperature")]) :=
  rfl

/-- C9, amended: on any response whose envelope misses the expected value
slot, the parse failure is swallowed inside `_get_value_from_data_response`
and `get_channel_data` returns the boolean `False` to its caller; the
`APIError`-wrapping branch is unreachable. -/
theorem malformed_read_swallowed (cfg : Config) (net : Net) (channel : Int)
    (target : String) (k : String) (d : JValue) (hk : cfg.key = some k)
    (hresp : net.getResp (valuesGetPath cfg k (channelDevice channel) target)
      = .ok d)
    (hmal : valueField d (channelDevice channel) target = none) :
    get_channel_data cfg net channel target
      = (.ok (.bool false),
         [.get (valuesGetPath cfg k (channelDevice channel) target)]) := by
  simp [get_channel_data, get_value_request, hk, hresp,
    get_value_from_data_response, hmal]

/-- Witness for the amended C9 at a concrete malformed body. -/
theorem malformed_read_swallowed_witness :
    get_channel_data cfgDemo ⟨fun _ => .ok (.obj [("other", .num 1)]),
        fun _ _ => .ok .null⟩ 6 "resistance"
      = (.ok (.bool false),
         [.get (valuesGetPath cfgDemo "apikey" (channelDevice 6) "resistance")]) :=
  malformed_read_swallowed cfgDemo
    ⟨fun _ => .ok (.obj [("other", .num 1)]), fun _ _ => .ok .null⟩
    6 "resistance" "apikey" (.obj [("other", .num 1)]) rfl rfl rfl

end BlueFTC
